import Mathlib

/-!
Shallow embedding of the event subsystem of `nexus-rs`
(`src/nexus/src/api/event/mod.rs` and `src/nexus/src/api/mod.rs`).

Modelling conventions:
* an identifier is its UTF-8 byte sequence, a `List Nat`;
* a raw pointer or function pointer is its bit pattern, a `Nat`
  (wrapped in a typed structure where the source distinguishes types);
* each call into a host entry point is recorded as a `HostCall`;
  every operation returns the list of host calls it performed together
  with its result;
* a Rust panic (failed identifier conversion, capability table accessed
  before initialization) is an `Except.error` carrying the abort cause.
-/

namespace Nexus

/-- Cause of an aborted operation (a Rust panic in the source). -/
inductive Abort where
  | nullByte
  | uninitialized
deriving DecidableEq, Repr

/-- A single invocation of one of the host's raw event entry points,
recording the entry point used and the exact arguments passed. -/
inductive HostCall where
  | subscribe (identifier : List Nat) (callback : Nat)
  | unsubscribe (identifier : List Nat) (callback : Nat)
  | raise (identifier : List Nat) (event_data : Nat)
  | raiseNotification (identifier : List Nat)
  | raiseTargeted (signature : Int) (identifier : List Nat) (event_data : Nat)
  | raiseNotificationTargeted (signature : Int) (identifier : List Nat)
deriving DecidableEq, Repr

/-- Modelled from the spec: `crate::util::str_to_c` is not under `src/`.
Per §6, UTF-8 text is converted to a null-terminated byte sequence and the
conversion fails if the text contains an embedded null byte; per §7 the
failure aborts the operation (the source passes a panic message,
"failed to convert event identifier"). -/
def str_to_c (s : List Nat) : Option (List Nat) :=
  if 0 ∈ s then none else some (s ++ [0])

/-- Modelled from the spec (§6): the event part of the host capability
table, a struct of six function pointers supplied once at process start. -/
structure EventApi where
  subscribe : Nat
  unsubscribe : Nat
  raise : Nat
  raise_notification : Nat
  raise_targeted : Nat
  raise_notification_targeted : Nat
deriving DecidableEq, Repr

/-- The host capability table (`AddonApi` in `api/mod.rs`); only the event
part is needed here. -/
structure AddonApi where
  event : EventApi
deriving DecidableEq, Repr

/-- The process-wide global state: `some api` after host initialization
completes, `none` before. -/
abbrev Globals := Option AddonApi

/-- `AddonApi::get` (`src/nexus/src/api/mod.rs`, lines 27-35): returns the
Nexus `AddonApi` instance; panics if called before initialization
(`crate::globals::addon_api`, modelled from the spec §5/§7 as a fatal,
unrecoverable abort). -/
def AddonApi.get (g : Globals) : Except Abort AddonApi :=
  match g with
  | none => .error .uninitialized
  | some api => .ok api

/-- `RawEventConsume<T>`: a function pointer taking `*const T`, identified
by its bit pattern. -/
structure RawEventConsume (T : Type) where
  addr : Nat
deriving DecidableEq, Repr

/-- The opaque pointee type `c_void`. -/
def CVoid : Type := Unit

/-- `RawEventConsumeUnknown = RawEventConsume<c_void>`. -/
abbrev RawEventConsumeUnknown := RawEventConsume CVoid

/-- `mem::transmute::<RawEventConsume<T>, RawEventConsumeUnknown>`
(`event/mod.rs`, lines 127-128): reinterpret the function pointer without
altering its bit pattern. -/
def transmuteConsume (T : Type) (callback : RawEventConsume T) :
    RawEventConsumeUnknown :=
  ⟨callback.addr⟩

/-- A raw `*const T` pointer, identified by its bit pattern; `0` is null. -/
structure ConstPtr (T : Type) where
  addr : Nat
deriving DecidableEq, Repr

/-- Modelled from the spec: `crate::revertible::Revertible` is not under
`src/`. Per §4.5 it wraps an owned undo closure; `revert` invokes it. Here
the closure is the list of host calls an invocation performs. -/
structure Revertible where
  revert : Unit → List HostCall

/-- `event_subscribe_unknown` (`event/mod.rs`, lines 102-115): convert the
identifier, fetch the capability table, call the host's raw subscribe
entry point, and return a `Revertible` whose closure calls the host's raw
unsubscribe entry point with the captured (identifier, callback) pair. -/
def event_subscribe_unknown (g : Globals) (identifier : List Nat)
    (callback : RawEventConsumeUnknown) :
    List HostCall × Except Abort Revertible :=
  match str_to_c identifier with
  | none => ([], .error .nullByte)
  | some cident =>
    match AddonApi.get g with
    | .error e => ([], .error e)
    | .ok _ =>
      ([HostCall.subscribe cident callback.addr],
        .ok ⟨fun _ => [HostCall.unsubscribe cident callback.addr]⟩)

/-- `event_subscribe_typed` (`event/mod.rs`, lines 123-130): transmute the
typed callback to the unknown-payload form and forward to
`event_subscribe_unknown`. -/
def event_subscribe_typed (T : Type) (g : Globals) (identifier : List Nat)
    (callback : RawEventConsume T) :
    List HostCall × Except Abort Revertible :=
  event_subscribe_unknown g identifier (transmuteConsume T callback)

/-- `event_unsubscribe` (`event/mod.rs`, lines 133-137): convert the
identifier, fetch the capability table, call the host's raw unsubscribe
entry point. -/
def event_unsubscribe (g : Globals) (identifier : List Nat)
    (callback : RawEventConsumeUnknown) :
    List HostCall × Except Abort Unit :=
  match str_to_c identifier with
  | none => ([], .error .nullByte)
  | some cident =>
    match AddonApi.get g with
    | .error e => ([], .error e)
    | .ok _ => ([HostCall.unsubscribe cident callback.addr], .ok ())

/-- `event_raise` (`event/mod.rs`, lines 278-283): convert the identifier,
take the payload's address, fetch the capability table, call the host's
raw raise entry point with (identifier, payload pointer). -/
def event_raise (T : Type) (g : Globals) (identifier : List Nat)
    (event_data : ConstPtr T) : List HostCall × Except Abort Unit :=
  match str_to_c identifier with
  | none => ([], .error .nullByte)
  | some cident =>
    match AddonApi.get g with
    | .error e => ([], .error e)
    | .ok _ => ([HostCall.raise cident event_data.addr], .ok ())

/-- `event_raise_notification` (`event/mod.rs`, lines 286-292): convert the
identifier, fetch the capability table, call the host's raw
raise-notification entry point with (identifier). -/
def event_raise_notification (g : Globals) (identifier : List Nat) :
    List HostCall × Except Abort Unit :=
  match str_to_c identifier with
  | none => ([], .error .nullByte)
  | some cident =>
    match AddonApi.get g with
    | .error e => ([], .error e)
    | .ok _ => ([HostCall.raiseNotification cident], .ok ())

/-- `event_raise_targeted` (`event/mod.rs`, lines 298-303): convert the
identifier, take the payload's address, fetch the capability table, call
the host's raw raise-targeted entry point with (signature, identifier,
payload pointer). -/
def event_raise_targeted (T : Type) (g : Globals) (signature : Int)
    (identifier : List Nat) (event_data : ConstPtr T) :
    List HostCall × Except Abort Unit :=
  match str_to_c identifier with
  | none => ([], .error .nullByte)
  | some cident =>
    match AddonApi.get g with
    | .error e => ([], .error e)
    | .ok _ =>
      ([HostCall.raiseTargeted signature cident event_data.addr], .ok ())

/-- `event_raise_notification_targeted` (`event/mod.rs`, lines 306-313):
convert the identifier, fetch the capability table, call the host's raw
raise-notification-targeted entry point with (signature, identifier). -/
def event_raise_notification_targeted (g : Globals) (signature : Int)
    (identifier : List Nat) : List HostCall × Except Abort Unit :=
  match str_to_c identifier with
  | none => ([], .error .nullByte)
  | some cident =>
    match AddonApi.get g with
    | .error e => ([], .error e)
    | .ok _ => ([HostCall.raiseNotificationTargeted signature cident], .ok ())

/-- `Event<T>`: an event identifier and payload type pair
(`event/mod.rs`, lines 41-45). -/
structure Event (T : Type) where
  identifier : List Nat
deriving DecidableEq, Repr

/-- `Event::subscribe` (`event/mod.rs`, lines 62-67): forwards to
`event_subscribe_typed` under the event's identifier. -/
def Event.subscribe (T : Type) (e : Event T) (g : Globals)
    (callback : RawEventConsume T) :
    List HostCall × Except Abort Revertible :=
  event_subscribe_typed T g e.identifier callback

/-- `Event::raise` (`event/mod.rs`, lines 71-73): forwards to `event_raise`
under the event's identifier. -/
def Event.raise (T : Type) (e : Event T) (g : Globals)
    (event_data : ConstPtr T) : List HostCall × Except Abort Unit :=
  event_raise T g e.identifier event_data

/-- On a fixed target every thin `*const T` occupies the machine pointer
size, independent of `T`. -/
def constPtrSize (ptrSize : Nat) (T : Type) : Nat := ptrSize

/-- `mem::transmute` between two pointer types: the compiler accepts the
cast only when both types have the same size (the proof obligation `h`),
and the bit pattern is returned unchanged. -/
def transmuteSized (sizeA sizeB : Nat) (h : sizeA = sizeB) (bits : Nat) :
    Nat :=
  bits

/-- `<*const T>::as_ref()` on the possibly-null pointer `p` against a heap
of `T` values: `some none` for null, `some (some v)` for a non-null pointer
to a valid `v`; `none` marks a dangling non-null pointer (undefined
behavior, excluded by the host's contract). -/
def ptr_as_ref (T : Type) (heap : Nat → Option T) (p : Nat) :
    Option (Option T) :=
  if p = 0 then some none else (heap p).map some

/-- The body of a wrapper generated by `event_consume!`
(`event/mod.rs`, lines 184-187): perform the size-check transmute of the
incoming pointer (a no-op on its bits), convert the possibly-null pointer
with `as_ref`, and forward to the user callback. Returns `none` only in
the undefined-behavior case of a dangling non-null pointer. -/
def event_consume_wrapper (T R : Type) (ptrSize : Nat)
    (callback : Option T → R) (heap : Nat → Option T) (data : Nat) :
    Option R :=
  let _ := transmuteSized (constPtrSize ptrSize T)
    (constPtrSize ptrSize CVoid) rfl data
  (ptr_as_ref T heap data).map callback

/-- A wrapper generated at one expansion site of `event_consume!`: each
expansion defines its own function item `__event_callback_wrapper`, so a
trampoline is identified by its expansion site together with the wrapped
user callback. -/
structure Trampoline (T : Type) where
  site : Nat
  callback : Option T → Unit

/-- The function pointer of a generated wrapper: each expansion site is a
distinct function item with its own address. -/
def trampolinePtr (T : Type) (t : Trampoline T) : RawEventConsume T :=
  ⟨t.site⟩

/-- Modelled from the spec: the host's subscriber registry (an external
collaborator, §1). Per §4.2/§8 the host stores subscriptions as
(identifier, callback pointer) pairs, subscribe adds one, unsubscribe
removes the matching one by pointer value, and raises do not change the
registry. -/
def hostApply (st : List (List Nat × Nat)) : HostCall → List (List Nat × Nat)
  | .subscribe i cb => (i, cb) :: st
  | .unsubscribe i cb => st.erase (i, cb)
  | _ => st

/-- Run a sequence of host calls against the host's subscriber registry. -/
def hostRun (st : List (List Nat × Nat)) (calls : List HostCall) :
    List (List Nat × Nat) :=
  calls.foldl hostApply st

/-- C1: for every event identifier and typed callback, subscribe erases the
callback to the unknown-payload form (same bit pattern), forwards it with
the converted identifier to the host's raw subscribe entry point, and
returns a reversible action whose invocation calls the host's raw
unsubscribe entry point with exactly the same (identifier, erased-callback)
pair. -/
theorem event_subscribe_typed_spec (T : Type) (api : AddonApi)
    (identifier ci : List Nat) (callback : RawEventConsume T)
    (h : str_to_c identifier = some ci) :
    event_subscribe_typed T (some api) identifier callback =
      ([HostCall.subscribe ci (transmuteConsume T callback).addr],
        .ok ⟨fun _ =>
          [HostCall.unsubscribe ci (transmuteConsume T callback).addr]⟩) := by
  simp [event_subscribe_typed, event_subscribe_unknown, h, AddonApi.get]

/-- Witness for C1 at a concrete input. -/
theorem event_subscribe_typed_spec_witness :
    str_to_c [84, 69] = some [84, 69, 0] ∧
    event_subscribe_typed Nat (some ⟨⟨1, 2, 3, 4, 5, 6⟩⟩) [84, 69] ⟨7⟩ =
      ([HostCall.subscribe [84, 69, 0] 7],
        .ok ⟨fun _ => [HostCall.unsubscribe [84, 69, 0] 7]⟩) :=
  ⟨rfl,
    event_subscribe_typed_spec Nat ⟨⟨1, 2, 3, 4, 5, 6⟩⟩ [84, 69] [84, 69, 0]
      ⟨7⟩ rfl⟩

/-- C2: for every identifier containing an embedded null byte, each of the
subscribe, unsubscribe and raise operations aborts at the string-conversion
step before any host entry point is called: the host-call trace is empty
and the result is the null-byte abort, for every global state. -/
theorem null_byte_aborts_before_host_call (T : Type) (g : Globals)
    (identifier : List Nat) (h : 0 ∈ identifier)
    (cb : RawEventConsumeUnknown) (cbT : RawEventConsume T) (p : ConstPtr T)
    (sig : Int) :
    event_subscribe_unknown g identifier cb = ([], .error .nullByte) ∧
    event_subscribe_typed T g identifier cbT = ([], .error .nullByte) ∧
    event_unsubscribe g identifier cb = ([], .error .nullByte) ∧
    event_raise T g identifier p = ([], .error .nullByte) ∧
    event_raise_notification g identifier = ([], .error .nullByte) ∧
    event_raise_targeted T g sig identifier p = ([], .error .nullByte) ∧
    event_raise_notification_targeted g sig identifier =
      ([], .error .nullByte) := by
  have hc : str_to_c identifier = none := by simp [str_to_c, h]
  refine ⟨?_, ?_, ?_, ?_, ?_, ?_, ?_⟩ <;>
    simp [event_subscribe_unknown, event_subscribe_typed, event_unsubscribe,
      event_raise, event_raise_notification, event_raise_targeted,
      event_raise_notification_targeted, hc]

/-- Witness for C2 at a concrete input. -/
theorem null_byte_aborts_before_host_call_witness :
    (0 ∈ [65, 0, 66]) ∧
    (event_subscribe_unknown none [65, 0, 66] ⟨7⟩ = ([], .error .nullByte) ∧
    event_subscribe_typed Nat none [65, 0, 66] ⟨8⟩ = ([], .error .nullByte) ∧
    event_unsubscribe none [65, 0, 66] ⟨7⟩ = ([], .error .nullByte) ∧
    event_raise Nat none [65, 0, 66] ⟨9⟩ = ([], .error .nullByte) ∧
    event_raise_notification none [65, 0, 66] = ([], .error .nullByte) ∧
    event_raise_targeted Nat none 5 [65, 0, 66] ⟨9⟩ =
      ([], .error .nullByte) ∧
    event_raise_notification_targeted none 5 [65, 0, 66] =
      ([], .error .nullByte)) :=
  ⟨by decide,
    null_byte_aborts_before_host_call Nat none [65, 0, 66] (by decide)
      ⟨7⟩ ⟨8⟩ ⟨9⟩ 5⟩

/-- C3: a wrapper generated by `event_consume!` invoked with a null pointer
forwards `none` to the user callback; invoked with a non-null pointer to a
valid value it forwards `some` of that value; and in all cases it does
nothing besides converting the pointer and forwarding to the callback. -/
theorem event_consume_wrapper_spec (T R : Type) (ptrSize : Nat)
    (callback : Option T → R) (heap : Nat → Option T) (p : Nat) (v : T)
    (hp : p ≠ 0) (hv : heap p = some v) :
    event_consume_wrapper T R ptrSize callback heap 0 =
      some (callback none) ∧
    event_consume_wrapper T R ptrSize callback heap p =
      some (callback (some v)) ∧
    ∀ q, event_consume_wrapper T R ptrSize callback heap q =
      (ptr_as_ref T heap q).map callback := by
  refine ⟨?_, ?_, fun q => rfl⟩
  · simp [event_consume_wrapper, ptr_as_ref]
  · simp [event_consume_wrapper, ptr_as_ref, hp, hv]

/-- Witness for C3 at a concrete input. -/
theorem event_consume_wrapper_spec_witness :
    ((5 : Nat) ≠ 0 ∧
      (fun a => if a = 5 then some 42 else none) 5 = some 42) ∧
    (event_consume_wrapper Nat Nat 8 (fun o => o.getD 0)
      (fun a => if a = 5 then some 42 else none) 0 = some 0 ∧
    event_consume_wrapper Nat Nat 8 (fun o => o.getD 0)
      (fun a => if a = 5 then some 42 else none) 5 = some 42 ∧
    ∀ q, event_consume_wrapper Nat Nat 8 (fun o => o.getD 0)
      (fun a => if a = 5 then some 42 else none) q =
      (ptr_as_ref Nat (fun a => if a = 5 then some 42 else none) q).map
        (fun o => o.getD 0)) :=
  ⟨⟨by decide, by decide⟩,
    event_consume_wrapper_spec Nat Nat 8 (fun o => o.getD 0)
      (fun a => if a = 5 then some 42 else none) 5 42 (by decide) (by decide)⟩

/-- C4: for every identifier without embedded null bytes, subscribing and
then invoking the returned reversible action leaves the host's subscriber
registry unchanged: the revert emits exactly one host unsubscribe, for the
pair subscribe registered, and running subscribe's trace followed by
revert's trace over any registry state returns that state. -/
theorem subscribe_revert_roundtrip (api : AddonApi)
    (identifier ci : List Nat) (callback : RawEventConsumeUnknown)
    (h : str_to_c identifier = some ci) :
    ∀ r, (event_subscribe_unknown (some api) identifier callback).2 = .ok r →
      r.revert () = [HostCall.unsubscribe ci callback.addr] ∧
      ∀ st, hostRun st
        ((event_subscribe_unknown (some api) identifier callback).1 ++
          r.revert ()) = st := by
  intro r hr
  have hs : event_subscribe_unknown (some api) identifier callback =
      ([HostCall.subscribe ci callback.addr],
        .ok ⟨fun _ => [HostCall.unsubscribe ci callback.addr]⟩) := by
    simp [event_subscribe_unknown, h, AddonApi.get]
  rw [hs] at hr ⊢
  cases hr
  refine ⟨rfl, fun st => ?_⟩
  simp [hostRun, hostApply]

/-- Witness for C4 at a concrete input. -/
theorem subscribe_revert_roundtrip_witness :
    str_to_c [84] = some [84, 0] ∧
    (Revertible.mk (fun _ => [HostCall.unsubscribe [84, 0] 7])).revert () =
      [HostCall.unsubscribe [84, 0] 7] ∧
    ∀ st, hostRun st
      ((event_subscribe_unknown (some ⟨⟨1, 2, 3, 4, 5, 6⟩⟩) [84] ⟨7⟩).1 ++
        (Revertible.mk
          (fun _ => [HostCall.unsubscribe [84, 0] 7])).revert ()) = st :=
  ⟨rfl,
    subscribe_revert_roundtrip ⟨⟨1, 2, 3, 4, 5, 6⟩⟩ [84] [84, 0] ⟨7⟩ rfl
      ⟨fun _ => [HostCall.unsubscribe [84, 0] 7]⟩ rfl⟩

/-- C5: every operation needing the capability table goes through the
single accessor `AddonApi.get`, and before host initialization that
accessor, and with it each of subscribe, unsubscribe and all four raise
variants, aborts with the fatal uninitialized error, performing no host
call. -/
theorem uninitialized_api_aborts (T : Type) (identifier ci : List Nat)
    (h : str_to_c identifier = some ci) (cb : RawEventConsumeUnknown)
    (cbT : RawEventConsume T) (p : ConstPtr T) (sig : Int) :
    AddonApi.get none = .error .uninitialized ∧
    event_subscribe_unknown none identifier cb =
      ([], .error .uninitialized) ∧
    event_subscribe_typed T none identifier cbT =
      ([], .error .uninitialized) ∧
    event_unsubscribe none identifier cb = ([], .error .uninitialized) ∧
    event_raise T none identifier p = ([], .error .uninitialized) ∧
    event_raise_notification none identifier =
      ([], .error .uninitialized) ∧
    event_raise_targeted T none sig identifier p =
      ([], .error .uninitialized) ∧
    event_raise_notification_targeted none sig identifier =
      ([], .error .uninitialized) := by
  refine ⟨rfl, ?_, ?_, ?_, ?_, ?_, ?_, ?_⟩ <;>
    simp [event_subscribe_unknown, event_subscribe_typed, event_unsubscribe,
      event_raise, event_raise_notification, event_raise_targeted,
      event_raise_notification_targeted, h, AddonApi.get]

/-- Witness for C5 at a concrete input. -/
theorem uninitialized_api_aborts_witness :
    str_to_c [80] = some [80, 0] ∧
    (AddonApi.get none = .error .uninitialized ∧
    event_subscribe_unknown none [80] ⟨7⟩ = ([], .error .uninitialized) ∧
    event_subscribe_typed Nat none [80] ⟨8⟩ = ([], .error .uninitialized) ∧
    event_unsubscribe none [80] ⟨7⟩ = ([], .error .uninitialized) ∧
    event_raise Nat none [80] ⟨9⟩ = ([], .error .uninitialized) ∧
    event_raise_notification none [80] = ([], .error .uninitialized) ∧
    event_raise_targeted Nat none 5 [80] ⟨9⟩ =
      ([], .error .uninitialized) ∧
    event_raise_notification_targeted none 5 [80] =
      ([], .error .uninitialized)) :=
  ⟨rfl, uninitialized_api_aborts Nat [80] [80, 0] rfl ⟨7⟩ ⟨8⟩ ⟨9⟩ 5⟩

/-- C6: wrappers generated at two distinct expansion sites of
`event_consume!` are distinct function items, so their function pointers
differ, and unsubscribing the host registry by one pointer never removes a
subscription registered under the other. -/
theorem distinct_trampolines (T : Type) (t1 t2 : Trampoline T)
    (hsite : t1.site ≠ t2.site) (i : List Nat)
    (st : List (List Nat × Nat))
    (hmem : (i, (trampolinePtr T t2).addr) ∈ st) :
    trampolinePtr T t1 ≠ trampolinePtr T t2 ∧
    (i, (trampolinePtr T t2).addr) ∈
      hostApply st (HostCall.unsubscribe i (trampolinePtr T t1).addr) := by
  refine ⟨fun hEq => hsite (congrArg RawEventConsume.addr hEq), ?_⟩
  have hne : (i, (trampolinePtr T t2).addr) ≠
      (i, (trampolinePtr T t1).addr) := by
    intro hEq
    exact hsite (by simpa [trampolinePtr] using (Prod.mk.injEq ..).mp hEq |>.2.symm)
  simpa [hostApply] using List.mem_erase_of_ne hne |>.mpr hmem

/-- Witness for C6 at a concrete input. -/
theorem distinct_trampolines_witness :
    ((1 : Nat) ≠ 2 ∧ ([65], 2) ∈ [([65], 1), ([65], 2)]) ∧
    (trampolinePtr Nat ⟨1, fun _ => ()⟩ ≠
        trampolinePtr Nat ⟨2, fun _ => ()⟩ ∧
    ([65], (trampolinePtr Nat ⟨2, fun _ => ()⟩).addr) ∈
      hostApply [([65], 1), ([65], 2)]
        (HostCall.unsubscribe [65]
          (trampolinePtr Nat ⟨1, fun _ => ()⟩).addr)) :=
  ⟨⟨by decide, by decide⟩,
    distinct_trampolines Nat ⟨1, fun _ => ()⟩ ⟨2, fun _ => ()⟩ (by decide)
      [65] [([65], 1), ([65], 2)] (by decide)⟩

/-- C7: the type-erasure step converts the typed callback pointer into the
opaque form without altering its bit pattern, and `event_subscribe_typed`
is exactly `event_subscribe_unknown` applied to the erased pointer, with no
other effect. -/
theorem erasure_preserves_bits (T : Type) (callback : RawEventConsume T)
    (g : Globals) (identifier : List Nat) :
    (transmuteConsume T callback).addr = callback.addr ∧
    event_subscribe_typed T g identifier callback =
      event_subscribe_unknown g identifier (transmuteConsume T callback) :=
  ⟨rfl, rfl⟩

/-- C8: the wrapper generated for every payload type `T` contains the
compile-time size check that `*const T` and the opaque `*const c_void`
have the same size; the check holds for every `T` on every target and the
checked transmute leaves the pointer bits unchanged. -/
theorem size_check_holds (ptrSize : Nat) (T : Type) (bits : Nat) :
    ∃ h : constPtrSize ptrSize T = constPtrSize ptrSize CVoid,
      transmuteSized (constPtrSize ptrSize T) (constPtrSize ptrSize CVoid)
        h bits = bits :=
  ⟨rfl, rfl⟩

/-- C9: each of the four raise operations is a pass-through: with a
convertible identifier and an initialized capability table it performs
exactly one host call carrying the exact parameter shape of its variant
and nothing else. -/
theorem raise_passthrough (T : Type) (api : AddonApi)
    (identifier ci : List Nat) (h : str_to_c identifier = some ci)
    (p : ConstPtr T) (sig : Int) :
    event_raise T (some api) identifier p =
      ([HostCall.raise ci p.addr], .ok ()) ∧
    event_raise_notification (some api) identifier =
      ([HostCall.raiseNotification ci], .ok ()) ∧
    event_raise_targeted T (some api) sig identifier p =
      ([HostCall.raiseTargeted sig ci p.addr], .ok ()) ∧
    event_raise_notification_targeted (some api) sig identifier =
      ([HostCall.raiseNotificationTargeted sig ci], .ok ()) := by
  refine ⟨?_, ?_, ?_, ?_⟩ <;>
    simp [event_raise, event_raise_notification, event_raise_targeted,
      event_raise_notification_targeted, h, AddonApi.get]

/-- Witness for C9 at a concrete input. -/
theorem raise_passthrough_witness :
    str_to_c [80] = some [80, 0] ∧
    (event_raise Nat (some ⟨⟨1, 2, 3, 4, 5, 6⟩⟩) [80] ⟨9⟩ =
      ([HostCall.raise [80, 0] 9], .ok ()) ∧
    event_raise_notification (some ⟨⟨1, 2, 3, 4, 5, 6⟩⟩) [80] =
      ([HostCall.raiseNotification [80, 0]], .ok ()) ∧
    event_raise_targeted Nat (some ⟨⟨1, 2, 3, 4, 5, 6⟩⟩) 3 [80] ⟨9⟩ =
      ([HostCall.raiseTargeted 3 [80, 0] 9], .ok ()) ∧
    event_raise_notification_targeted (some ⟨⟨1, 2, 3, 4, 5, 6⟩⟩) 3 [80] =
      ([HostCall.raiseNotificationTargeted 3 [80, 0]], .ok ())) :=
  ⟨rfl, raise_passthrough Nat ⟨⟨1, 2, 3, 4, 5, 6⟩⟩ [80] [80, 0] rfl ⟨9⟩ 3⟩

/-- C10: the revert closure returned by subscribe captures the converted
identifier and the erased callback at subscribe time: every invocation
returns the same single host unsubscribe call with those captured
arguments, with no re-conversion and no possibility of failure. -/
theorem revert_captures_converted (api : AddonApi)
    (identifier ci : List Nat) (callback : RawEventConsumeUnknown)
    (h : str_to_c identifier = some ci) :
    ∀ r, (event_subscribe_unknown (some api) identifier callback).2 = .ok r →
      ∀ u : Unit, r.revert u = [HostCall.unsubscribe ci callback.addr] := by
  intro r hr u
  have hs : event_subscribe_unknown (some api) identifier callback =
      ([HostCall.subscribe ci callback.addr],
        .ok ⟨fun _ => [HostCall.unsubscribe ci callback.addr]⟩) := by
    simp [event_subscribe_unknown, h, AddonApi.get]
  rw [hs] at hr
  cases hr
  rfl

/-- Witness for C10 at a concrete input. -/
theorem revert_captures_converted_witness :
    str_to_c [84] = some [84, 0] ∧
    (Revertible.mk (fun _ => [HostCall.unsubscribe [84, 0] 7])).revert () =
      [HostCall.unsubscribe [84, 0] 7] :=
  ⟨rfl,
    revert_captures_converted ⟨⟨1, 2, 3, 4, 5, 6⟩⟩ [84] [84, 0] ⟨7⟩ rfl
      ⟨fun _ => [HostCall.unsubscribe [84, 0] 7]⟩ rfl ()⟩

end Nexus
